import Mathlib

/-!
Shallow embedding of the campus card-management backend (src/app.py and
src/models.py): JSON payloads, the relational store, and each HTTP handler
as a pure function from (inputs, store) to (result, store).

Conventions used throughout:
* Timestamps are abstract ticks (Nat); datetime.utcnow() is passed in as a
  parameter named now.
* Python floats are modelled exactly: a telemetry feature value is either a
  rational number or the NaN sentinel (FVal below), mirroring numpy.nan.
* request.get_json(force=True, silent=True) is modelled as Option Payload,
  none standing for a malformed body; the Python truthiness test if not data
  is false for none and for the empty dict.
* Decimal numbers produced by round(x, 2) are carried as an integer count of
  hundredths (Python round uses round-half-to-even; the sub-ULP binary float
  representation error is not modelled).
-/

namespace CampusCard

/-- JSON values as they arrive in a request body.  Arrays and nested objects
never reach the code paths under study and are omitted. -/
inductive JVal where
  | jstr (s : String)
  | jint (n : Int)
  | jnum (q : ℚ)
  | jbool (b : Bool)
  | jnull
deriving Repr, DecidableEq

/-- A parsed JSON object body, as an association list. -/
abbrev Payload := List (String × JVal)

/-- Python's data.get(k): absent keys and JSON null both surface as None. -/
def jget (d : Payload) (k : String) : Option JVal :=
  match d.lookup k with
  | some JVal.jnull => none
  | v => v

/-- Python truthiness of a value obtained from data.get(k). -/
def truthy : Option JVal → Bool
  | none => false
  | some (JVal.jstr s) => s != ""
  | some (JVal.jint n) => n != 0
  | some (JVal.jnum q) => q != 0
  | some (JVal.jbool b) => b
  | some JVal.jnull => false

/-- Numeric value of one decimal digit character. -/
def digitVal (c : Char) : Nat := c.toNat - 48

/-- Reads a nonempty all-digit character list as a natural number. -/
def parseNatDigits (cs : List Char) : Option Nat :=
  if cs.isEmpty then none
  else cs.foldlM (fun acc c => if c.isDigit then some (acc * 10 + digitVal c) else none) 0

/-- Splits an optional leading sign.  Returns (isNegative, rest). -/
def splitSign : List Char → Bool × List Char
  | '-' :: rest => (true, rest)
  | '+' :: rest => (false, rest)
  | cs => (false, cs)

/-- Python float(s) on a string: optional sign, then digits with an optional
decimal point ("5", "5.", ".5").  Exponent forms, inf/nan literals, and
surrounding whitespace are not modelled; no claim exercises them. -/
def parseFloatString (s : String) : Option ℚ :=
  let (neg, cs) := splitSign s.toList
  let ip := cs.takeWhile Char.isDigit
  let rest := cs.dropWhile Char.isDigit
  match rest with
  | [] =>
    match parseNatDigits ip with
    | some n => some (if neg then -(n : ℚ) else (n : ℚ))
    | none => none
  | '.' :: fp =>
    if fp.all Char.isDigit && (!ip.isEmpty || !fp.isEmpty) then
      let ipn := (parseNatDigits ip).getD 0
      let fpn := (parseNatDigits fp).getD 0
      let v : ℚ := (ipn : ℚ) + (fpn : ℚ) / ((10 : ℚ) ^ fp.length)
      some (if neg then -v else v)
    else none
  | _ => none

/-- Python int(s) on a string: optional sign then digits only ("5.0" is
rejected).  Underscore separators and whitespace are not modelled. -/
def parseIntString (s : String) : Option Int :=
  let (neg, cs) := splitSign s.toList
  if !cs.isEmpty && cs.all Char.isDigit then
    (parseNatDigits cs).map (fun n => if neg then -(n : Int) else (n : Int))
  else none

/-- A telemetry feature value: a real number or the NaN sentinel (numpy.nan). -/
inductive FVal where
  | num (q : ℚ)
  | nan
deriving Repr, DecidableEq

/-- True exactly on the NaN sentinel (np.isnan). -/
def FVal.isNan : FVal → Bool
  | FVal.nan => true
  | FVal.num _ => false

/-- The helper to_float(x, default=np.nan) from app.py applied to
data.get(k): float() succeeds on numbers, booleans and numeric strings,
and every failure is replaced by the NaN sentinel. -/
def to_float : Option JVal → FVal
  | none => FVal.nan
  | some JVal.jnull => FVal.nan
  | some (JVal.jint n) => FVal.num n
  | some (JVal.jnum q) => FVal.num q
  | some (JVal.jbool b) => FVal.num (if b then 1 else 0)
  | some (JVal.jstr s) =>
    match parseFloatString s with
    | some q => FVal.num q
    | none => FVal.nan

/-- Truncation of a rational toward zero, as Python int() applied to a float. -/
def ratTrunc (q : ℚ) : Int :=
  if 0 ≤ q then Int.fdiv q.num q.den else -(Int.fdiv (-q).num (-q).den)

/-- Python int(x) on a JSON value: exact on integers, truncating on finite
floats, strict parse on strings, 0/1 on booleans; none models the raised
ValueError / TypeError. -/
def pyInt : JVal → Option Int
  | JVal.jint n => some n
  | JVal.jnum q => some (ratTrunc q)
  | JVal.jbool b => some (if b then 1 else 0)
  | JVal.jstr s => parseIntString s
  | JVal.jnull => none

/-- String form of a JSON value, used where app.py passes the raw value as
the primary-key uid.  Claims only ever exercise string uids. -/
def pyStr : JVal → String
  | JVal.jstr s => s
  | JVal.jint n => toString n
  | JVal.jnum q => toString q
  | JVal.jbool b => if b then "True" else "False"
  | JVal.jnull => "None"

/-- Row of the students table (models.py Student). -/
structure Student where
  uid : String
  name : String
  phone : Option String
  created_at : Nat
  status : String
  balance : Int
deriving Repr, DecidableEq

/-- Row of the transaction_logs table (models.py TransactionLog). -/
structure TransactionLog where
  tid : Nat
  uid : String
  amount : Int
  timestamp : Nat
deriving Repr, DecidableEq

/-- Row of the system_logs table (models.py SystemLog).  NOTE: the model
declares columns memory_usage, wifi_signal, reader_response, error_rate and
anomaly only — there is no cpu_usage column, even though app.py passes
cpu_usage to the constructor and reads log.cpu_usage when serializing. -/
structure SystemLog where
  log_id : Nat
  timestamp : Nat
  memory_usage : FVal
  wifi_signal : FVal
  reader_response : FVal
  error_rate : FVal
  anomaly : Int
deriving Repr, DecidableEq

/-- Row of the anomalies table (models.py Anomaly). -/
structure Anomaly where
  anomaly_id : Nat
  type : String
  source : String
  details : String
  severity : String
  timestamp : Nat
deriving Repr, DecidableEq

/-- The relational store, with the auto-increment counters made explicit. -/
structure Store where
  students : List Student
  transaction_logs : List TransactionLog
  system_logs : List SystemLog
  anomalies : List Anomaly
  next_tid : Nat
  next_log_id : Nat
  next_anomaly_id : Nat
deriving Repr, DecidableEq

/-- Student.query.get(uid): primary-key lookup. -/
def findStudent (s : Store) (uid : String) : Option Student :=
  s.students.find? (fun st => st.uid == uid)

/-- In-place update of the status of the student with the given uid. -/
def setStudentStatus (l : List Student) (uid newStatus : String) : List Student :=
  l.map (fun st => if st.uid == uid then { st with status := newStatus } else st)

/-- In-place update of the balance of the student with the given uid. -/
def setStudentBalance (l : List Student) (uid : String) (b : Int) : List Student :=
  l.map (fun st => if st.uid == uid then { st with balance := b } else st)

/-- Feature-name order fixed by app.py (model_features). -/
def model_features : List String :=
  ["cpu_usage", "memory_usage", "wifi_signal", "reader_response", "error_rate"]

/-- An externally trained classifier: maps a feature vector to a label,
-1 meaning outlier. -/
abbrev Clf := List ℚ → Int

/-- The numeric payloads of a list of feature values that are all valid. -/
def fvalsToRats (l : List FVal) : List ℚ :=
  l.filterMap (fun v => match v with | FVal.num q => some q | FVal.nan => none)

/-- Result of POST /register_student. -/
inductive RegisterRes where
  | invalidJson
  | missingFields
  | duplicate
  | created (st : Student)
deriving Repr, DecidableEq

/-- Handler register_student (app.py lines 83-104). -/
def register_student (now : Nat) (s : Store) (data : Option Payload) :
    RegisterRes × Store :=
  match data with
  | none => (RegisterRes.invalidJson, s)
  | some d =>
    if d.isEmpty then (RegisterRes.invalidJson, s)
    else
      let uidv := jget d "uid"
      let namev := jget d "name"
      if !truthy uidv || !truthy namev then (RegisterRes.missingFields, s)
      else
        let uid := pyStr (uidv.getD JVal.jnull)
        match findStudent s uid with
        | some _ => (RegisterRes.duplicate, s)
        | none =>
          let st : Student :=
            { uid := uid
              name := pyStr (namev.getD JVal.jnull)
              phone := (jget d "phone").map pyStr
              created_at := now
              status := "active"
              balance := 0 }
          (RegisterRes.created st, { s with students := s.students ++ [st] })

/-- Result of POST /update_status. -/
inductive UpdateStatusRes where
  | invalidJson
  | badFields
  | notFound
  | ok (st : Student)
deriving Repr, DecidableEq

/-- The list of statuses accepted by /update_status. -/
def validStatuses : List String := ["active", "blocked", "unregistered"]

/-- Truth of: new_status in ["active", "blocked", "unregistered"], where
new_status is whatever data.get("status") returned. -/
def statusValid : Option JVal → Bool
  | some (JVal.jstr v) => validStatuses.contains v
  | _ => false

/-- Handler update_status (app.py lines 113-139). -/
def update_status (s : Store) (data : Option Payload) : UpdateStatusRes × Store :=
  match data with
  | none => (UpdateStatusRes.invalidJson, s)
  | some d =>
    if d.isEmpty then (UpdateStatusRes.invalidJson, s)
    else
      let uidv := jget d "uid"
      let stv := jget d "status"
      if !truthy uidv || !statusValid stv then (UpdateStatusRes.badFields, s)
      else
        let uid := pyStr (uidv.getD JVal.jnull)
        let newStatus := pyStr (stv.getD JVal.jnull)
        match findStudent s uid with
        | none => (UpdateStatusRes.notFound, s)
        | some st =>
          (UpdateStatusRes.ok { st with status := newStatus },
           { s with students := setStudentStatus s.students uid newStatus })

/-- Result of the fixed-status shortcuts /block_card, /unblock_card,
/unregister_card. -/
inductive WrapperRes where
  | invalidJson
  | missingUid
  | notFound
  | ok (st : Student)
deriving Repr, DecidableEq

/-- Handler update_status_wrapper (app.py lines 154-174), shared by the
three shortcut endpoints; new_status is fixed by the caller. -/
def update_status_wrapper (newStatus : String) (s : Store) (data : Option Payload) :
    WrapperRes × Store :=
  match data with
  | none => (WrapperRes.invalidJson, s)
  | some d =>
    if d.isEmpty then (WrapperRes.invalidJson, s)
    else
      let uidv := jget d "uid"
      if !truthy uidv then (WrapperRes.missingUid, s)
      else
        let uid := pyStr (uidv.getD JVal.jnull)
        match findStudent s uid with
        | none => (WrapperRes.notFound, s)
        | some st =>
          (WrapperRes.ok { st with status := newStatus },
           { s with students := setStudentStatus s.students uid newStatus })

/-- Result of POST /recharge_card. -/
inductive RechargeRes where
  | invalidJson
  | missingFields
  | notFound
  | forbidden
  | internalError
  | ok (uid : String) (new_balance : Int)
deriving Repr, DecidableEq

/-- Handler recharge_card (app.py lines 177-209).  The expression
int(student.balance or 0) is the identity here: balance is always an
integer in the model, and (0 or 0) is 0. -/
def recharge_card (s : Store) (data : Option Payload) : RechargeRes × Store :=
  match data with
  | none => (RechargeRes.invalidJson, s)
  | some d =>
    if d.isEmpty then (RechargeRes.invalidJson, s)
    else
      let uidv := jget d "uid"
      let amountv := jget d "amount"
      if !truthy uidv || amountv.isNone then (RechargeRes.missingFields, s)
      else
        let uid := pyStr (uidv.getD JVal.jnull)
        match findStudent s uid with
        | none => (RechargeRes.notFound, s)
        | some st =>
          if st.status != "active" then (RechargeRes.forbidden, s)
          else
            match pyInt (amountv.getD JVal.jnull) with
            | none => (RechargeRes.internalError, s)
            | some a =>
              (RechargeRes.ok uid (st.balance + a),
               { s with students := setStudentBalance s.students uid (st.balance + a) })

/-- Result of POST /log_transaction. -/
inductive LogTxRes where
  | invalidJson
  | missingFields
  | notFound
  | forbidden
  | internalError
  | created (tx : TransactionLog)
deriving Repr, DecidableEq

/-- Handler log_transaction (app.py lines 331-366).  ts = datetime.utcnow()
is taken at entry; the stored amount is int(amount); the balance decreases
by the same int(amount). -/
def log_transaction (now : Nat) (s : Store) (data : Option Payload) :
    LogTxRes × Store :=
  match data with
  | none => (LogTxRes.invalidJson, s)
  | some d =>
    if d.isEmpty then (LogTxRes.invalidJson, s)
    else
      let uidv := jget d "uid"
      let amountv := jget d "amount"
      if !truthy uidv || amountv.isNone then (LogTxRes.missingFields, s)
      else
        let uid := pyStr (uidv.getD JVal.jnull)
        match findStudent s uid with
        | none => (LogTxRes.notFound, s)
        | some st =>
          if st.status != "active" then (LogTxRes.forbidden, s)
          else
            match pyInt (amountv.getD JVal.jnull) with
            | none => (LogTxRes.internalError, s)
            | some a =>
              let tx : TransactionLog :=
                { tid := s.next_tid, uid := uid, amount := a, timestamp := now }
              (LogTxRes.created tx,
               { s with
                   students := setStudentBalance s.students uid (st.balance - a)
                   transaction_logs := s.transaction_logs ++ [tx]
                   next_tid := s.next_tid + 1 })

/-- Aggregates returned by GET /anomalies_dashboard.  anomaly_rate is the
percentage rounded to 2 decimals, carried as an integer count of hundredths
of a percent. -/
structure DashboardRes where
  total_anomalies : Nat
  high : Nat
  medium : Nat
  low : Nat
  system_logs : Nat
  anomaly_rate_hundredths : Int
deriving Repr, DecidableEq

/-- Rounding of num/den (den positive) to the nearest integer, ties to even:
the exact behaviour of Python round() on the exact rational value. -/
def divRoundHalfEven (num den : Int) : Int :=
  let q := Int.fdiv num den
  let r := num - q * den
  if 2 * r = den then (if q % 2 = 0 then q else q + 1)
  else if 2 * r < den then q else q + 1

/-- Handler anomalies_dashboard (app.py lines 214-231).  The source computes
round((anomaly_logs / system_logs) * 100, 2) if system_logs else 0; the
rounded 2-decimal percentage equals divRoundHalfEven (10000 * anomaly_logs)
system_logs hundredths. -/
def anomalies_dashboard (s : Store) : DashboardRes :=
  let anomaly_logs := (s.system_logs.filter (fun l => l.anomaly == 1)).length
  { total_anomalies := s.anomalies.length
    high := (s.anomalies.filter (fun a => a.severity == "High")).length
    medium := (s.anomalies.filter (fun a => a.severity == "Medium")).length
    low := (s.anomalies.filter (fun a => a.severity == "Low")).length
    system_logs := s.system_logs.length
    anomaly_rate_hundredths :=
      if s.system_logs.length != 0 then
        divRoundHalfEven (10000 * anomaly_logs) s.system_logs.length
      else 0 }

/-- Counts reported by POST /reset_system. -/
structure ResetRes where
  num_tx : Nat
  num_anomalies : Nat
deriving Repr, DecidableEq

/-- Handler reset_system (app.py lines 236-245): deletes all transaction
logs and all anomalies; .delete() returns the row counts. -/
def reset_system (s : Store) : ResetRes × Store :=
  ({ num_tx := s.transaction_logs.length, num_anomalies := s.anomalies.length },
   { s with transaction_logs := [], anomalies := [] })

/-- Insertion step of the descending-timestamp sort used by the recent
queries. -/
def insertByTsDesc (ts : α → Nat) (x : α) : List α → List α
  | [] => [x]
  | y :: ys => if ts y ≤ ts x then x :: y :: ys else y :: insertByTsDesc ts x ys

/-- Stable sort by descending timestamp (ORDER BY timestamp DESC). -/
def sortByTsDesc (ts : α → Nat) : List α → List α
  | [] => []
  | x :: xs => insertByTsDesc ts x (sortByTsDesc ts xs)

/-- Handler recent_transactions (app.py lines 247-250): last 10 by
timestamp descending. -/
def recent_transactions (s : Store) : List TransactionLog :=
  (sortByTsDesc TransactionLog.timestamp s.transaction_logs).take 10

/-- Rows returned by GET /anomalies (app.py lines 309-312): last 10 by
timestamp descending. -/
def recent_anomalies (s : Store) : List Anomaly :=
  (sortByTsDesc Anomaly.timestamp s.anomalies).take 10

/-- Result of GET /system_logs. -/
inductive SysGetRes where
  | okEmpty
  | attrError
deriving Repr, DecidableEq

/-- Handler system_logs, GET branch (app.py lines 254-256).  Serializing any
row calls system_log_to_dict, which reads log.cpu_usage; the SystemLog model
defines no such attribute, so any nonempty result raises AttributeError and
Flask produces a non-JSON 500.  With no rows the response is the empty JSON
array. -/
def system_logs_get (s : Store) : SysGetRes :=
  if s.system_logs.isEmpty then SysGetRes.okEmpty else SysGetRes.attrError

/-- Result of POST /system_logs. -/
inductive SysPostRes where
  | invalidJson
  | typeError
deriving Repr, DecidableEq

/-- The five to_float coercions of app.py lines 268-274, in model_features
order. -/
def parseTelemetry (d : Payload) : List FVal :=
  model_features.map (fun f => to_float (jget d f))

/-- Handler system_logs, POST branch (app.py lines 258-307).  After the JSON
check, ts and the five telemetry coercions are computed without touching the
store; line 276 then evaluates SystemLog(cpu_usage=..., ...).  models.py
declares no cpu_usage column on SystemLog, so SQLAlchemy's declarative
constructor raises TypeError before db.session.add/commit ever runs: nothing
is inserted, the classifier is never invoked, and the uncaught exception
becomes a non-JSON 500.  The clf and now arguments are therefore unused by
the result. -/
def system_logs_post (clf : Option Clf) (now : Nat) (s : Store)
    (data : Option Payload) : SysPostRes × Store :=
  match data with
  | none => (SysPostRes.invalidJson, s)
  | some d =>
    if d.isEmpty then (SysPostRes.invalidJson, s)
    else
      let _telemetry := parseTelemetry d
      let _ := clf
      let _ := now
      (SysPostRes.typeError, s)

/-- Result of POST /predict. -/
inductive PredictRes where
  | noModel
  | invalidJson
  | badFeatures
  | ok (result : String)
deriving Repr, DecidableEq

/-- Handler predict (app.py lines 314-329).  The model check precedes the
JSON parse; feature validation is strict (any NaN is rejected); inference
maps label -1 to "Anomaly" and anything else to "Normal".  No store access. -/
def predict (clf : Option Clf) (data : Option Payload) : PredictRes :=
  match clf with
  | none => PredictRes.noModel
  | some c =>
    match data with
    | none => PredictRes.invalidJson
    | some d =>
      if d.isEmpty then PredictRes.invalidJson
      else
        let feats := parseTelemetry d
        if feats.any FVal.isNan then PredictRes.badFeatures
        else PredictRes.ok (if c (fvalsToRats feats) == -1 then "Anomaly" else "Normal")

/-- JSON values as they leave the server.  Decimal numbers produced by
round(x, 2) are carried as hundredths (jdec). -/
inductive JOut where
  | jstr (s : String)
  | jint (n : Int)
  | jdec (hundredths : Int)
  | jfval (v : FVal)
  | jnull
  | jobj (fields : List (String × JOut))
  | jarr (elems : List JOut)

/-- Field lookup on an object body; none on non-objects. -/
def JOut.field : JOut → String → Option JOut
  | JOut.jobj fields, k => fields.lookup k
  | _, _ => none

/-- True when the body is a JSON array. -/
def JOut.isArr : JOut → Bool
  | JOut.jarr _ => true
  | _ => false

/-- A well-formed handler body per the spec sentence under test: an object
whose status field is the string success, or the string error together with
a string message. -/
def wellFormedBody (b : JOut) : Bool :=
  match b.field "status" with
  | some (JOut.jstr "success") => true
  | some (JOut.jstr "error") =>
    match b.field "message" with
    | some (JOut.jstr _) => true
    | _ => false
  | _ => false

/-- Rendering of a timestamp tick, standing in for datetime.isoformat(). -/
def isoformat (t : Nat) : String := toString t

/-- Serialization of an optional string column. -/
def ostr : Option String → JOut
  | some s => JOut.jstr s
  | none => JOut.jnull

/-- The uniform error body jsonify(status=error, message=msg). -/
def errBody (msg : String) : JOut :=
  JOut.jobj [("status", JOut.jstr "error"), ("message", JOut.jstr msg)]

/-- Serializer student_to_dict (app.py lines 33-40). -/
def student_to_dict (st : Student) : JOut :=
  JOut.jobj
    [("uid", JOut.jstr st.uid), ("name", JOut.jstr st.name),
     ("phone", ostr st.phone), ("status", JOut.jstr st.status),
     ("created_at", JOut.jstr (isoformat st.created_at))]

/-- Serializer transaction_to_dict (app.py lines 42-48). -/
def transaction_to_dict (tx : TransactionLog) : JOut :=
  JOut.jobj
    [("tid", JOut.jint tx.tid), ("uid", JOut.jstr tx.uid),
     ("amount", JOut.jint tx.amount),
     ("timestamp", JOut.jstr (isoformat tx.timestamp))]

/-- Serializer anomaly_to_dict (app.py lines 62-70). -/
def anomaly_to_dict (a : Anomaly) : JOut :=
  JOut.jobj
    [("anomaly_id", JOut.jint a.anomaly_id), ("type", JOut.jstr a.type),
     ("source", JOut.jstr a.source), ("details", JOut.jstr a.details),
     ("severity", JOut.jstr a.severity),
     ("timestamp", JOut.jstr (isoformat a.timestamp))]

/-- Stand-in for str(e) on the int() coercion failure; only its presence in
the message matters to any claim. -/
def intCoercionErrText : String := "invalid literal for int with base 10"

/-- HTTP code and body of each register_student return (app.py 83-104). -/
def registerResponse : RegisterRes → Nat × JOut
  | RegisterRes.invalidJson => (400, errBody "Invalid or missing JSON")
  | RegisterRes.missingFields => (400, errBody "UID and name are required")
  | RegisterRes.duplicate => (400, errBody "Student already exists")
  | RegisterRes.created st =>
    (200, JOut.jobj
      [("status", JOut.jstr "success"), ("message", JOut.jstr "Student registered"),
       ("student", student_to_dict st)])

/-- HTTP code and body of GET /students (app.py 107-110). -/
def studentsResponse (l : List Student) : Nat × JOut :=
  (200, JOut.jobj
    [("status", JOut.jstr "success"),
     ("students", JOut.jarr (l.map student_to_dict))])

/-- HTTP code and body of each update_status return (app.py 113-139). -/
def updateStatusResponse : UpdateStatusRes → Nat × JOut
  | UpdateStatusRes.invalidJson => (400, errBody "Invalid or missing JSON")
  | UpdateStatusRes.badFields =>
    (400, errBody "UID and valid status (active/blocked/unregistered) are required")
  | UpdateStatusRes.notFound => (404, errBody "Student not found")
  | UpdateStatusRes.ok st =>
    (200, JOut.jobj
      [("status", JOut.jstr "success"),
       ("message", JOut.jstr
         ("Student " ++ st.uid ++ " status updated to " ++ st.status)),
       ("student", student_to_dict st)])

/-- HTTP code and body of each update_status_wrapper return (app.py 154-174). -/
def wrapperResponse : WrapperRes → Nat × JOut
  | WrapperRes.invalidJson => (400, errBody "Invalid or missing JSON")
  | WrapperRes.missingUid => (400, errBody "UID is required")
  | WrapperRes.notFound => (404, errBody "Student not found")
  | WrapperRes.ok st =>
    (200, JOut.jobj
      [("status", JOut.jstr "success"),
       ("message", JOut.jstr
         ("Student " ++ st.uid ++ " status updated to " ++ st.status)),
       ("student", student_to_dict st)])

/-- HTTP code and body of each recharge_card return (app.py 177-209). -/
def rechargeResponse : RechargeRes → Nat × JOut
  | RechargeRes.invalidJson => (400, errBody "Invalid or missing JSON")
  | RechargeRes.missingFields => (400, errBody "UID and amount are required")
  | RechargeRes.notFound => (404, errBody "Student not found")
  | RechargeRes.forbidden =>
    (403, errBody "Recharge not allowed. Student is not active.")
  | RechargeRes.internalError =>
    (500, errBody ("Recharge failed: " ++ intCoercionErrText))
  | RechargeRes.ok uid bal =>
    (200, JOut.jobj
      [("status", JOut.jstr "success"),
       ("message", JOut.jstr "Balance updated successfully"),
       ("uid", JOut.jstr uid), ("new_balance", JOut.jint bal)])

/-- HTTP code and body of each log_transaction return (app.py 331-366). -/
def logTxResponse : LogTxRes → Nat × JOut
  | LogTxRes.invalidJson => (400, errBody "Invalid or missing JSON")
  | LogTxRes.missingFields => (400, errBody "UID and amount are required")
  | LogTxRes.notFound => (404, errBody "Student not found")
  | LogTxRes.forbidden => (403, errBody "Transaction denied. Card inactive.")
  | LogTxRes.internalError =>
    (500, errBody ("Transaction failed: " ++ intCoercionErrText))
  | LogTxRes.created tx =>
    (201, JOut.jobj
      [("status", JOut.jstr "success"),
       ("message", JOut.jstr "Transaction logged successfully"),
       ("transaction", transaction_to_dict tx)])

/-- HTTP code and body of GET /anomalies_dashboard (app.py 214-231). -/
def dashboardResponse (r : DashboardRes) : Nat × JOut :=
  (200, JOut.jobj
    [("status", JOut.jstr "success"),
     ("total_anomalies", JOut.jint r.total_anomalies),
     ("severity_distribution", JOut.jobj
       [("High", JOut.jint r.high), ("Medium", JOut.jint r.medium),
        ("Low", JOut.jint r.low)]),
     ("system_logs", JOut.jint r.system_logs),
     ("anomaly_rate", JOut.jdec r.anomaly_rate_hundredths)])

/-- HTTP code and body of each reset_system return (app.py 236-245). -/
def resetResponse (r : ResetRes) : Nat × JOut :=
  (200, JOut.jobj
    [("status", JOut.jstr "success"),
     ("message", JOut.jstr
       ("System reset: " ++ toString r.num_tx ++ " transactions, "
         ++ toString r.num_anomalies ++ " anomalies cleared"))])

/-- HTTP code and body of GET /recent_transactions (app.py 247-250): a bare
JSON array, with no status field. -/
def recentTransactionsResponse (s : Store) : Nat × JOut :=
  (200, JOut.jarr ((recent_transactions s).map transaction_to_dict))

/-- HTTP code and body of GET /anomalies (app.py 309-312): a bare JSON
array, with no status field. -/
def anomaliesResponse (s : Store) : Nat × JOut :=
  (200, JOut.jarr ((recent_anomalies s).map anomaly_to_dict))

/-- HTTP code and body of GET /system_logs; none stands for the non-JSON
Flask 500 page raised by the missing cpu_usage attribute. -/
def sysGetResponse : SysGetRes → Nat × Option JOut
  | SysGetRes.okEmpty => (200, some (JOut.jarr []))
  | SysGetRes.attrError => (500, none)

/-- HTTP code and body of POST /system_logs; none stands for the non-JSON
Flask 500 page raised by the SystemLog constructor TypeError. -/
def sysPostResponse : SysPostRes → Nat × Option JOut
  | SysPostRes.invalidJson => (400, some (errBody "Invalid or missing JSON"))
  | SysPostRes.typeError => (500, none)

/-- HTTP code and body of each predict return (app.py 314-329). -/
def predictResponse : PredictRes → Nat × JOut
  | PredictRes.noModel => (503, errBody "No model loaded")
  | PredictRes.invalidJson => (400, errBody "Invalid or missing JSON")
  | PredictRes.badFeatures =>
    (400, errBody "All features required and must be numeric")
  | PredictRes.ok r =>
    (200, JOut.jobj
      [("status", JOut.jstr "success"), ("prediction", JOut.jstr r)])

/-! Helper lemmas shared by several claims. -/

theorem isEmpty_false_of_jget (d : Payload) (k : String) (v : JVal)
    (h : jget d k = some v) : d.isEmpty = false := by
  cases d with
  | nil => simp [jget, List.lookup] at h
  | cons a l => rfl

theorem find?_setStudentBalance (l : List Student) (uid : String) (b : Int) :
    (setStudentBalance l uid b).find? (fun st => st.uid == uid) =
      (l.find? (fun st => st.uid == uid)).map (fun st => { st with balance := b }) := by
  induction l with
  | nil => rfl
  | cons hd tl ih =>
    simp only [setStudentBalance, List.map_cons, List.find?]
    by_cases h : hd.uid = uid
    · simp [h]
    · have hb : (hd.uid == uid) = false := by simp [h]
      simp only [hb, Bool.false_eq_true, if_false, if_neg h]
      exact ih

theorem find?_setStudentStatus (l : List Student) (uid v : String) :
    (setStudentStatus l uid v).find? (fun st => st.uid == uid) =
      (l.find? (fun st => st.uid == uid)).map (fun st => { st with status := v }) := by
  induction l with
  | nil => rfl
  | cons hd tl ih =>
    simp only [setStudentStatus, List.map_cons, List.find?]
    by_cases h : hd.uid = uid
    · simp [h]
    · have hb : (hd.uid == uid) = false := by simp [h]
      simp only [hb, Bool.false_eq_true, if_false, if_neg h]
      exact ih

theorem setStudentStatus_idem (l : List Student) (uid v : String) :
    setStudentStatus (setStudentStatus l uid v) uid v = setStudentStatus l uid v := by
  simp only [setStudentStatus, List.map_map]
  refine List.map_congr_left (fun a _ => ?_)
  by_cases h : a.uid = uid <;> simp [Function.comp, h]

theorem balance_setStudentStatus (l : List Student) (uid v : String) :
    (setStudentStatus l uid v).map Student.balance = l.map Student.balance := by
  simp only [setStudentStatus, List.map_map]
  refine List.map_congr_left (fun a _ => ?_)
  by_cases h : a.uid = uid <;> simp [Function.comp, h]

/-- C1: on an active student with balance b, a successful
logTransaction(uid, amount) with an integer amount sets the balance to
b - amount and appends exactly one transaction row holding the raw amount
and the current timestamp. -/
theorem C1_log_transaction_active (now : Nat) (s : Store) (d : Payload)
    (uid : String) (a : Int) (st : Student)
    (huid : jget d "uid" = some (JVal.jstr uid)) (hne : uid ≠ "")
    (hamt : jget d "amount" = some (JVal.jint a))
    (hfind : findStudent s uid = some st)
    (hact : st.status = "active") :
    log_transaction now s (some d) =
      (LogTxRes.created { tid := s.next_tid, uid := uid, amount := a, timestamp := now },
       { s with
           students := setStudentBalance s.students uid (st.balance - a)
           transaction_logs := s.transaction_logs ++
             [{ tid := s.next_tid, uid := uid, amount := a, timestamp := now }]
           next_tid := s.next_tid + 1 }) ∧
    findStudent (log_transaction now s (some d)).2 uid =
      some { st with balance := st.balance - a } := by
  have hd : d.isEmpty = false := isEmpty_false_of_jget d _ _ huid
  have h1 : log_transaction now s (some d) =
      (LogTxRes.created { tid := s.next_tid, uid := uid, amount := a, timestamp := now },
       { s with
           students := setStudentBalance s.students uid (st.balance - a)
           transaction_logs := s.transaction_logs ++
             [{ tid := s.next_tid, uid := uid, amount := a, timestamp := now }]
           next_tid := s.next_tid + 1 }) := by
    simp [log_transaction, hd, huid, hamt, truthy, pyStr, pyInt, hfind, hact, hne]
  refine ⟨h1, ?_⟩
  rw [h1]
  show (setStudentBalance s.students uid (st.balance - a)).find? (fun x => x.uid == uid) =
    some { st with balance := st.balance - a }
  rw [find?_setStudentBalance]
  rw [show List.find? (fun x : Student => x.uid == uid) s.students = some st from hfind]
  rfl

/-- Witness for C1 at the concrete instance of the claim: an active student
S1 with balance 100 and logTransaction(amount = 50). -/
def stC1 : Student :=
  { uid := "S1", name := "Alice", phone := none, created_at := 0,
    status := "active", balance := 100 }

def storeC1 : Store :=
  { students := [stC1], transaction_logs := [], system_logs := [],
    anomalies := [], next_tid := 7, next_log_id := 1, next_anomaly_id := 1 }

def payloadC1 : Payload := [("uid", JVal.jstr "S1"), ("amount", JVal.jint 50)]

theorem C1_log_transaction_active_witness :
    jget payloadC1 "uid" = some (JVal.jstr "S1") ∧
    jget payloadC1 "amount" = some (JVal.jint 50) ∧
    findStudent storeC1 "S1" = some stC1 ∧
    stC1.status = "active" ∧
    (log_transaction 5 storeC1 (some payloadC1)).2.transaction_logs =
      [{ tid := 7, uid := "S1", amount := 50, timestamp := 5 }] ∧
    findStudent (log_transaction 5 storeC1 (some payloadC1)).2 "S1" =
      some { stC1 with balance := stC1.balance - 50 } := by
  refine ⟨rfl, rfl, rfl, rfl, ?_, ?_⟩
  · have h := (C1_log_transaction_active 5 storeC1 payloadC1 "S1" 50 stC1 rfl
      (by decide) rfl rfl rfl).1
    rw [h]
    rfl
  · exact (C1_log_transaction_active 5 storeC1 payloadC1 "S1" 50 stC1 rfl
      (by decide) rfl rfl rfl).2

/-- C2: balance mutations are only permitted in active status — recharge and
logTransaction on a student whose status is not active fail with Forbidden
(403) and leave the store, hence the balance and every other student field,
unchanged; and the status-updating handlers never change any balance. -/
theorem C2_balance_mutation_requires_active (now : Nat) (s : Store) (d : Payload)
    (uid : String) (v : JVal) (st : Student)
    (huid : jget d "uid" = some (JVal.jstr uid)) (hne : uid ≠ "")
    (hamt : jget d "amount" = some v)
    (hfind : findStudent s uid = some st)
    (hnact : st.status ≠ "active") :
    recharge_card s (some d) = (RechargeRes.forbidden, s) ∧
    log_transaction now s (some d) = (LogTxRes.forbidden, s) ∧
    (rechargeResponse RechargeRes.forbidden).1 = 403 ∧
    (logTxResponse LogTxRes.forbidden).1 = 403 ∧
    (∀ data : Option Payload,
      ((update_status s data).2).students.map Student.balance =
        s.students.map Student.balance) ∧
    (∀ (ns : String) (data : Option Payload),
      ((update_status_wrapper ns s data).2).students.map Student.balance =
        s.students.map Student.balance) := by
  have hd : d.isEmpty = false := isEmpty_false_of_jget d _ _ huid
  refine ⟨?_, ?_, rfl, rfl, ?_, ?_⟩
  · simp [recharge_card, hd, huid, hamt, truthy, pyStr, hfind, hne, hnact]
  · simp [log_transaction, hd, huid, hamt, truthy, pyStr, hfind, hne, hnact]
  · intro data
    cases data with
    | none => rfl
    | some d2 =>
      simp only [update_status]
      split
      · rfl
      · split
        · rfl
        · split
          · rfl
          · exact balance_setStudentStatus _ _ _
  · intro ns data
    cases data with
    | none => rfl
    | some d2 =>
      simp only [update_status_wrapper]
      split
      · rfl
      · split
        · rfl
        · split
          · rfl
          · exact balance_setStudentStatus _ _ _

/-- Witness for C2: recharging or charging the blocked student B1 is
forbidden and the store is unchanged. -/
def stC2 : Student :=
  { uid := "B1", name := "Bob", phone := some "555", created_at := 2,
    status := "blocked", balance := 40 }

def storeC2 : Store :=
  { students := [stC2], transaction_logs := [], system_logs := [],
    anomalies := [], next_tid := 1, next_log_id := 1, next_anomaly_id := 1 }

def payloadC2 : Payload := [("uid", JVal.jstr "B1"), ("amount", JVal.jint 10)]

theorem C2_balance_mutation_requires_active_witness :
    findStudent storeC2 "B1" = some stC2 ∧
    stC2.status ≠ "active" ∧
    recharge_card storeC2 (some payloadC2) = (RechargeRes.forbidden, storeC2) ∧
    log_transaction 9 storeC2 (some payloadC2) = (LogTxRes.forbidden, storeC2) := by
  have h := C2_balance_mutation_requires_active 9 storeC2 payloadC2 "B1"
    (JVal.jint 10) stC2 rfl (by decide) rfl rfl (by decide)
  exact ⟨rfl, by decide, h.1, h.2.1⟩

/-- C10: recharge or logTransaction on an existing active student with an
amount that is present but not coercible to an integer returns the
InternalError (500) response — not BadRequest — and leaves the store
unchanged: the balance keeps its prior value and no transaction row is
inserted. -/
theorem C10_uncoercible_amount_internal_error (now : Nat) (s : Store)
    (d : Payload) (uid : String) (v : JVal) (st : Student)
    (huid : jget d "uid" = some (JVal.jstr uid)) (hne : uid ≠ "")
    (hamt : jget d "amount" = some v) (hbad : pyInt v = none)
    (hfind : findStudent s uid = some st)
    (hact : st.status = "active") :
    recharge_card s (some d) = (RechargeRes.internalError, s) ∧
    log_transaction now s (some d) = (LogTxRes.internalError, s) ∧
    (rechargeResponse RechargeRes.internalError).1 = 500 ∧
    (logTxResponse LogTxRes.internalError).1 = 500 := by
  have hd : d.isEmpty = false := isEmpty_false_of_jget d _ _ huid
  refine ⟨?_, ?_, rfl, rfl⟩
  · simp [recharge_card, hd, huid, hamt, truthy, pyStr, hfind, hne, hact, hbad]
  · simp [log_transaction, hd, huid, hamt, truthy, pyStr, hfind, hne, hact, hbad]

/-- Witness for C10: amount "abc" on the active student S1. -/
def stC10 : Student :=
  { uid := "S1", name := "Ada", phone := none, created_at := 1,
    status := "active", balance := 75 }

def storeC10 : Store :=
  { students := [stC10], transaction_logs := [], system_logs := [],
    anomalies := [], next_tid := 4, next_log_id := 1, next_anomaly_id := 1 }

def payloadC10 : Payload := [("uid", JVal.jstr "S1"), ("amount", JVal.jstr "abc")]

theorem C10_uncoercible_amount_internal_error_witness :
    pyInt (JVal.jstr "abc") = none ∧
    findStudent storeC10 "S1" = some stC10 ∧
    recharge_card storeC10 (some payloadC10) = (RechargeRes.internalError, storeC10) ∧
    log_transaction 3 storeC10 (some payloadC10) = (LogTxRes.internalError, storeC10) ∧
    (rechargeResponse RechargeRes.internalError).1 = 500 := by
  have h := C10_uncoercible_amount_internal_error 3 storeC10 payloadC10 "S1"
    (JVal.jstr "abc") stC10 rfl (by decide) rfl (by decide) rfl rfl
  exact ⟨by decide, rfl, h.1, h.2.1, h.2.2.1⟩

/-- C9: setStatus is idempotent — calling update_status(uid, "blocked")
twice on an existing student succeeds both times, the status is "blocked"
after each call, and the second call returns exactly the state produced by
the first; the same holds for the fixed-status wrapper used by /block_card. -/
theorem C9_setStatus_blocked_idempotent (s : Store) (d : Payload)
    (uid : String) (st : Student)
    (huid : jget d "uid" = some (JVal.jstr uid)) (hne : uid ≠ "")
    (hst : jget d "status" = some (JVal.jstr "blocked"))
    (hfind : findStudent s uid = some st) :
    update_status s (some d) =
      (UpdateStatusRes.ok { st with status := "blocked" },
       { s with students := setStudentStatus s.students uid "blocked" }) ∧
    update_status { s with students := setStudentStatus s.students uid "blocked" }
        (some d) =
      (UpdateStatusRes.ok { st with status := "blocked" },
       { s with students := setStudentStatus s.students uid "blocked" }) ∧
    findStudent { s with students := setStudentStatus s.students uid "blocked" } uid =
      some { st with status := "blocked" } ∧
    update_status_wrapper "blocked" s (some d) =
      (WrapperRes.ok { st with status := "blocked" },
       { s with students := setStudentStatus s.students uid "blocked" }) ∧
    update_status_wrapper "blocked"
        { s with students := setStudentStatus s.students uid "blocked" } (some d) =
      (WrapperRes.ok { st with status := "blocked" },
       { s with students := setStudentStatus s.students uid "blocked" }) := by
  have hd : d.isEmpty = false := isEmpty_false_of_jget d _ _ huid
  have hfind1 : findStudent
      { s with students := setStudentStatus s.students uid "blocked" } uid =
      some { st with status := "blocked" } := by
    show (setStudentStatus s.students uid "blocked").find? (fun x => x.uid == uid) =
      some { st with status := "blocked" }
    rw [find?_setStudentStatus,
      show List.find? (fun x : Student => x.uid == uid) s.students = some st from hfind]
    rfl
  refine ⟨?_, ?_, hfind1, ?_, ?_⟩
  · simp [update_status, hd, huid, hst, truthy, pyStr, statusValid, validStatuses,
      hfind, hne]
  · simp [update_status, hd, huid, hst, truthy, pyStr, statusValid, validStatuses,
      hfind1, hne, setStudentStatus_idem]
  · simp [update_status_wrapper, hd, huid, truthy, pyStr, hfind, hne]
  · simp [update_status_wrapper, hd, huid, truthy, pyStr, hfind1, hne,
      setStudentStatus_idem]

/-- Witness for C9: blocking student S1 twice. -/
def stC9 : Student :=
  { uid := "S1", name := "Cleo", phone := none, created_at := 3,
    status := "active", balance := 12 }

def storeC9 : Store :=
  { students := [stC9], transaction_logs := [], system_logs := [],
    anomalies := [], next_tid := 1, next_log_id := 1, next_anomaly_id := 1 }

def payloadC9 : Payload := [("uid", JVal.jstr "S1"), ("status", JVal.jstr "blocked")]

theorem C9_setStatus_blocked_idempotent_witness :
    findStudent storeC9 "S1" = some stC9 ∧
    update_status storeC9 (some payloadC9) =
      (UpdateStatusRes.ok { stC9 with status := "blocked" },
       { storeC9 with students := setStudentStatus storeC9.students "S1" "blocked" }) ∧
    update_status
        { storeC9 with students := setStudentStatus storeC9.students "S1" "blocked" }
        (some payloadC9) =
      (UpdateStatusRes.ok { stC9 with status := "blocked" },
       { storeC9 with students := setStudentStatus storeC9.students "S1" "blocked" }) := by
  have h := C9_setStatus_blocked_idempotent storeC9 payloadC9 "S1" stC9 rfl
    (by decide) rfl rfl
  exact ⟨rfl, h.1, h.2.1⟩

/-- Correctness of the half-even rounding: for a positive denominator the
result is within half a unit of the exact quotient, i.e.
|result - num/den| ≤ 1/2, stated without division as
|2 * result * den - 2 * num| ≤ den. -/
theorem divRoundHalfEven_close (n t : Int) (ht : 0 < t) :
    |2 * divRoundHalfEven n t * t - 2 * n| ≤ t := by
  have hfd : Int.fdiv n t = n / t := Int.fdiv_eq_ediv n (le_of_lt ht)
  have hP : t * (n / t) + n % t = n := Int.ediv_add_emod n t
  have hc : t * (n / t) = n / t * t := mul_comm _ _
  have hmod0 : 0 ≤ n % t := Int.emod_nonneg n (ne_of_gt ht)
  have hmodlt : n % t < t := Int.emod_lt_of_pos n ht
  have hE : n - Int.fdiv n t * t = n % t := by
    rw [hfd, Int.emod_def]; ring
  simp only [divRoundHalfEven, hE, hfd]
  split_ifs with h1 h2 h3
  · rw [abs_le]; constructor <;> linarith
  · rw [abs_le]; constructor <;> linarith
  · rw [abs_le]; constructor <;> linarith
  · rw [abs_le]; constructor <;> linarith

/-- C6: the dashboard anomaly rate is 0 when no telemetry logs exist (no
division error), and otherwise equals (anomalous logs / total logs) x 100
rounded half-even to 2 decimals, carried in hundredths; the third conjunct
certifies the rounding: the reported hundredths are within half a hundredth
of the exact percentage. -/
theorem C6_dashboard_anomaly_rate (s : Store) :
    (s.system_logs = [] → (anomalies_dashboard s).anomaly_rate_hundredths = 0) ∧
    (s.system_logs ≠ [] →
      (anomalies_dashboard s).anomaly_rate_hundredths =
        divRoundHalfEven
          (10000 * ((s.system_logs.filter (fun l => l.anomaly == 1)).length : Int))
          (s.system_logs.length : Int) ∧
      |2 * (anomalies_dashboard s).anomaly_rate_hundredths * (s.system_logs.length : Int)
          - 2 * (10000 * ((s.system_logs.filter (fun l => l.anomaly == 1)).length : Int))|
        ≤ (s.system_logs.length : Int)) := by
  constructor
  · intro h
    simp [anomalies_dashboard, h]
  · intro h
    have hlen : s.system_logs.length ≠ 0 := by
      intro hh
      exact h (List.length_eq_zero.mp hh)
    have hlenb : (s.system_logs.length != 0) = true := by simpa using hlen
    have hpos : 0 < (s.system_logs.length : Int) := by
      exact_mod_cast Nat.pos_of_ne_zero hlen
    have heq : (anomalies_dashboard s).anomaly_rate_hundredths =
        divRoundHalfEven
          (10000 * ((s.system_logs.filter (fun l => l.anomaly == 1)).length : Int))
          (s.system_logs.length : Int) := by
      simp [anomalies_dashboard, hlenb]
    refine ⟨heq, ?_⟩
    rw [heq]
    exact divRoundHalfEven_close _ _ hpos

/-- Witness for C6: two telemetry logs, one anomalous, giving a rate of
50.00 percent (5000 hundredths), and the zero-log store giving rate 0. -/
def storeC6 : Store :=
  { students := [], transaction_logs := [],
    system_logs :=
      [{ log_id := 1, timestamp := 1, memory_usage := FVal.num 90,
         wifi_signal := FVal.num 12, reader_response := FVal.num 300,
         error_rate := FVal.num 5, anomaly := 1 },
       { log_id := 2, timestamp := 2, memory_usage := FVal.num 10,
         wifi_signal := FVal.num 80, reader_response := FVal.num 30,
         error_rate := FVal.num 1, anomaly := 0 }],
    anomalies := [], next_tid := 1, next_log_id := 3, next_anomaly_id := 1 }

def storeC6empty : Store :=
  { students := [], transaction_logs := [], system_logs := [],
    anomalies := [], next_tid := 1, next_log_id := 1, next_anomaly_id := 1 }

theorem C6_dashboard_anomaly_rate_witness :
    storeC6.system_logs ≠ [] ∧
    (anomalies_dashboard storeC6).anomaly_rate_hundredths = 5000 ∧
    storeC6empty.system_logs = [] ∧
    (anomalies_dashboard storeC6empty).anomaly_rate_hundredths = 0 := by
  refine ⟨by decide, ?_, rfl, (C6_dashboard_anomaly_rate storeC6empty).1 rfl⟩
  have h := ((C6_dashboard_anomaly_rate storeC6).2 (by decide)).1
  rw [h]
  decide

/-- C7: resetAll deletes every transaction row and every anomaly row,
returns the removed counts, leaves students and telemetry logs untouched,
and the recent listings are empty afterwards. -/
theorem C7_reset_system_frame (s : Store) :
    (reset_system s).1 =
      { num_tx := s.transaction_logs.length, num_anomalies := s.anomalies.length } ∧
    (reset_system s).2.transaction_logs = [] ∧
    (reset_system s).2.anomalies = [] ∧
    (reset_system s).2.students = s.students ∧
    (reset_system s).2.system_logs = s.system_logs ∧
    recent_transactions (reset_system s).2 = [] ∧
    recent_anomalies (reset_system s).2 = [] :=
  ⟨rfl, rfl, rfl, rfl, rfl, rfl, rfl⟩

/-- Classifier that labels every vector an outlier (-1). -/
def clfAllOutlier : Clf := fun _ => -1

/-- The empty store. -/
def emptyStore : Store :=
  { students := [], transaction_logs := [], system_logs := [],
    anomalies := [], next_tid := 1, next_log_id := 1, next_anomaly_id := 1 }

def payloadC3 : Payload :=
  [("cpu_usage", JVal.jnum 91), ("memory_usage", JVal.jnum 88),
   ("wifi_signal", JVal.jnum 12), ("reader_response", JVal.jnum 480),
   ("error_rate", JVal.jnum 9)]

/-- C3 (code bug evidence): a classifier is loaded, every one of the five
telemetry features is a valid number, and the classifier labels the vector
-1 — yet POST /system_logs neither flags the log nor inserts an Anomaly
row: models.SystemLog lacks the cpu_usage column app.py passes to its
constructor, so the handler raises TypeError (non-JSON 500) with the store
unchanged. -/
theorem C3_outlier_telemetry_crashes_instead :
    (parseTelemetry payloadC3).all (fun v => !v.isNan) = true ∧
    clfAllOutlier (fvalsToRats (parseTelemetry payloadC3)) = -1 ∧
    system_logs_post (some clfAllOutlier) 3 emptyStore (some payloadC3) =
      (SysPostRes.typeError, emptyStore) ∧
    (system_logs_post (some clfAllOutlier) 3 emptyStore (some payloadC3)).2.anomalies
      = [] ∧
    (sysPostResponse SysPostRes.typeError).1 = 500 :=
  ⟨by decide, rfl, rfl, rfl, rfl⟩

def payloadC4 : Payload :=
  [("cpu_usage", JVal.jint 42), ("memory_usage", JVal.jstr "oops"),
   ("wifi_signal", JVal.jnum 55), ("reader_response", JVal.jint 3),
   ("error_rate", JVal.jint 0)]

/-- C4 (code bug evidence): a telemetry submission (here with one
non-numeric feature, which to_float does coerce to the NaN sentinel) never
inserts a SystemLog row: the SystemLog model has no cpu_usage column, so the
constructor call in app.py raises TypeError and the handler returns a
non-JSON 500 with the store unchanged — no successful recordTelemetry call
exists. -/
theorem C4_telemetry_insert_always_fails :
    to_float (jget payloadC4 "memory_usage") = FVal.nan ∧
    system_logs_post none 9 emptyStore (some payloadC4) =
      (SysPostRes.typeError, emptyStore) ∧
    (system_logs_post none 9 emptyStore (some payloadC4)).2.system_logs = [] ∧
    (sysPostResponse SysPostRes.typeError).1 = 500 ∧
    (sysPostResponse SysPostRes.typeError).2 = none :=
  ⟨by decide, rfl, rfl, rfl, rfl⟩

def payloadC5bad : Payload := [("cpu_usage", JVal.jstr "abc")]

/-- C5 counterexample: the claim says a request with a missing or
non-numeric feature fails with BadRequest regardless of whether a
classifier is loaded; but with no classifier loaded the code checks the
model first and returns 503 ServiceUnavailable, not 400, on exactly such a
request. -/
theorem C5_counterexample_noModel_beats_badRequest :
    to_float (jget payloadC5bad "cpu_usage") = FVal.nan ∧
    to_float (jget payloadC5bad "memory_usage") = FVal.nan ∧
    predict none (some payloadC5bad) = PredictRes.noModel ∧
    (predictResponse (predict none (some payloadC5bad))).1 = 503 ∧
    (predictResponse (predict none (some payloadC5bad))).1 ≠ 400 :=
  ⟨by decide, by decide, rfl, rfl, by decide⟩

/-- C5 amended: with a classifier loaded, any nonempty parsed body in which
at least one of the five required features is missing or non-numeric fails
with BadRequest (400); with no classifier loaded, every request fails with
ServiceUnavailable (503) regardless of input validity. -/
theorem C5_amended_predict_validation :
    (∀ (c : Clf) (d : Payload), d.isEmpty = false →
      (parseTelemetry d).any FVal.isNan = true →
      predict (some c) (some d) = PredictRes.badFeatures ∧
      (predictResponse PredictRes.badFeatures).1 = 400) ∧
    (∀ data : Option Payload,
      predict none data = PredictRes.noModel ∧
      (predictResponse PredictRes.noModel).1 = 503) := by
  constructor
  · intro c d hne hbad
    refine ⟨?_, rfl⟩
    simp [predict, hne, hbad]
  · intro data
    exact ⟨rfl, rfl⟩

def payloadC5w : Payload := [("cpu_usage", JVal.jint 5)]

theorem C5_amended_predict_validation_witness :
    payloadC5w.isEmpty = false ∧
    (parseTelemetry payloadC5w).any FVal.isNan = true ∧
    predict (some clfAllOutlier) (some payloadC5w) = PredictRes.badFeatures ∧
    predict none (some payloadC5w) = PredictRes.noModel := by
  refine ⟨rfl, by decide, ?_, ?_⟩
  · exact (C5_amended_predict_validation.1 clfAllOutlier payloadC5w rfl (by decide)).1
  · exact (C5_amended_predict_validation.2 (some payloadC5w)).1

def storeC8 : Store :=
  { students := [],
    transaction_logs := [{ tid := 1, uid := "S1", amount := 5, timestamp := 3 }],
    system_logs := [], anomalies := [], next_tid := 2, next_log_id := 1,
    next_anomaly_id := 1 }

/-- C8 counterexample: GET /recent_transactions (and GET /anomalies) return
a bare JSON array with no status field at all, refuting the claim that
every endpoint response carries status success/error. -/
theorem C8_counterexample_bare_array :
    (recentTransactionsResponse storeC8).2.field "status" = none ∧
    (recentTransactionsResponse storeC8).2.isArr = true ∧
    (anomaliesResponse storeC8).2.field "status" = none :=
  ⟨rfl, rfl, rfl⟩

/-- C8 amended: every object-returning endpoint responds with JSON whose
status field is success or error, with a string message on every error; the
list endpoints (/recent_transactions, /anomalies, GET /system_logs) return
bare JSON arrays without a status field — GET /system_logs succeeding only
while no telemetry rows exist, since serializing any row fails on the
missing cpu_usage attribute, and POST /system_logs failing with a non-JSON
500 on any parsed body for the same reason; a malformed or missing JSON
body yields the 400 "Invalid or missing JSON" response on every POST
endpoint that reads its body (all but /reset_system, which ignores the
body, and /predict, which answers 503 first when no classifier is loaded). -/
theorem C8_amended_response_shapes :
    (∀ r : RegisterRes, wellFormedBody (registerResponse r).2 = true) ∧
    (∀ l : List Student, wellFormedBody (studentsResponse l).2 = true) ∧
    (∀ r : UpdateStatusRes, wellFormedBody (updateStatusResponse r).2 = true) ∧
    (∀ r : WrapperRes, wellFormedBody (wrapperResponse r).2 = true) ∧
    (∀ r : RechargeRes, wellFormedBody (rechargeResponse r).2 = true) ∧
    (∀ r : LogTxRes, wellFormedBody (logTxResponse r).2 = true) ∧
    (∀ r : DashboardRes, wellFormedBody (dashboardResponse r).2 = true) ∧
    (∀ r : ResetRes, wellFormedBody (resetResponse r).2 = true) ∧
    (∀ r : PredictRes, wellFormedBody (predictResponse r).2 = true) ∧
    (∀ s : Store, (recentTransactionsResponse s).2.isArr = true ∧
      (anomaliesResponse s).2.isArr = true) ∧
    (∀ s : Store, s.system_logs = [] →
      sysGetResponse (system_logs_get s) = (200, some (JOut.jarr []))) ∧
    (∀ s : Store, s.system_logs ≠ [] →
      sysGetResponse (system_logs_get s) = (500, none)) ∧
    sysPostResponse SysPostRes.invalidJson =
      (400, some (errBody "Invalid or missing JSON")) ∧
    (sysPostResponse SysPostRes.typeError).2 = none ∧
    (∀ (now : Nat) (s : Store),
      register_student now s none = (RegisterRes.invalidJson, s) ∧
      register_student now s (some []) = (RegisterRes.invalidJson, s) ∧
      log_transaction now s none = (LogTxRes.invalidJson, s) ∧
      log_transaction now s (some []) = (LogTxRes.invalidJson, s)) ∧
    (∀ s : Store,
      update_status s none = (UpdateStatusRes.invalidJson, s) ∧
      update_status s (some []) = (UpdateStatusRes.invalidJson, s) ∧
      recharge_card s none = (RechargeRes.invalidJson, s) ∧
      recharge_card s (some []) = (RechargeRes.invalidJson, s)) ∧
    (∀ (ns : String) (s : Store),
      update_status_wrapper ns s none = (WrapperRes.invalidJson, s) ∧
      update_status_wrapper ns s (some []) = (WrapperRes.invalidJson, s)) ∧
    (∀ (c : Option Clf) (now : Nat) (s : Store),
      system_logs_post c now s none = (SysPostRes.invalidJson, s) ∧
      system_logs_post c now s (some []) = (SysPostRes.invalidJson, s)) ∧
    (∀ c : Clf, predict (some c) none = PredictRes.invalidJson) ∧
    registerResponse RegisterRes.invalidJson =
      (400, errBody "Invalid or missing JSON") ∧
    updateStatusResponse UpdateStatusRes.invalidJson =
      (400, errBody "Invalid or missing JSON") ∧
    wrapperResponse WrapperRes.invalidJson =
      (400, errBody "Invalid or missing JSON") ∧
    rechargeResponse RechargeRes.invalidJson =
      (400, errBody "Invalid or missing JSON") ∧
    logTxResponse LogTxRes.invalidJson =
      (400, errBody "Invalid or missing JSON") ∧
    predictResponse PredictRes.invalidJson =
      (400, errBody "Invalid or missing JSON") := by
  refine ⟨fun r => by cases r <;> rfl,
    fun l => rfl,
    fun r => by cases r <;> rfl,
    fun r => by cases r <;> rfl,
    fun r => by cases r <;> rfl,
    fun r => by cases r <;> rfl,
    fun r => rfl,
    fun r => rfl,
    fun r => by cases r <;> rfl,
    fun s => ⟨rfl, rfl⟩,
    fun s h => by simp [system_logs_get, h, sysGetResponse],
    fun s h => ?_,
    rfl, rfl,
    fun now s => ⟨rfl, rfl, rfl, rfl⟩,
    fun s => ⟨rfl, rfl, rfl, rfl⟩,
    fun ns s => ⟨rfl, rfl⟩,
    fun c now s => ⟨rfl, rfl⟩,
    fun c => rfl,
    rfl, rfl, rfl, rfl, rfl, rfl⟩
  cases hl : s.system_logs with
  | nil => exact absurd hl h
  | cons a l => simp [system_logs_get, hl, sysGetResponse]

theorem C8_amended_response_shapes_witness :
    wellFormedBody (registerResponse RegisterRes.duplicate).2 = true ∧
    emptyStore.system_logs = [] ∧
    sysGetResponse (system_logs_get emptyStore) = (200, some (JOut.jarr [])) ∧
    storeC6.system_logs ≠ [] ∧
    sysGetResponse (system_logs_get storeC6) = (500, none) ∧
    recharge_card emptyStore none = (RechargeRes.invalidJson, emptyStore) := by
  obtain ⟨h1, h2, h3, h4, h5, h6, h7, h8, h9, h10, h11, h12, h13, h14, h15, h16,
    h17, h18, h19, h20, h21, h22, h23, h24, h25⟩ := C8_amended_response_shapes
  exact ⟨h1 RegisterRes.duplicate, rfl, h11 emptyStore rfl, by decide,
    h12 storeC6 (by decide), (h16 emptyStore).2.2.1⟩

end CampusCard
